import Mathlib

/-!
Verification of the Jansarthi civic-incident portal (`src/server.js`)
against its natural-language specification.

The Express handlers and the PostgreSQL tables they touch are shallowly
embedded: each table is a Lean list of row structures, each handler a pure
function from request data and table state to a response value and a new
table state.  Random values produced by `Math.random` (the case-id
characters, the OTP code) and the wall clock (`Date.now()`, SQL `NOW()`)
are passed in as explicit parameters.  Times are in milliseconds, as in
JavaScript.
-/

namespace Jansarthi

/-- JavaScript truthiness of an optional request-body string field:
`undefined` (here `none`) and the empty string are falsy. -/
def truthy : Option String → Bool
  | none => false
  | some s => s ≠ ""

/-! ## Case identifier generation (`generateCaseId`, server.js:143-150) -/

/-- The alphabet `chars` of `generateCaseId`. -/
def caseIdChars : String := "ABCDEFGHIJKLMNOPQRSTUVWXYZ0123456789"

/-- JavaScript `String.prototype.charAt`: the one-character string at the
index, or the empty string when the index is out of range. -/
def charAt (s : String) (i : Nat) : String :=
  match s.data.get? i with
  | some c => String.mk [c]
  | none => ""

/-- `generateCaseId` (server.js:143-150).  The six values of
`Math.floor(Math.random() * chars.length)` are supplied as `r 0 … r 5`;
`Math.random` returning a value in `[0,1)` means each `r i < 36`. -/
def generateCaseId (r : Nat → Nat) : String :=
  (List.range 6).foldl (fun id i => id ++ charAt caseIdChars (r i)) "CASE-"

/-! ## The complaint table `codinCluc` (server.js:41-54) -/

/-- Errors a single SQL statement can raise against the schema of
`ensureTables` (server.js:41-54): a `NOT NULL` violation, a `UNIQUE`
violation on `case_id`, or a failed cast into `BIGINT`. -/
inductive DbError
  | notNullViolation
  | uniqueViolation
  | typeError
  deriving DecidableEq, Repr

/-- A row of `codinCluc`.  `subject` and `description` are `NOT NULL`;
`category`, `image_path` and `location` are nullable; `mobile_no` is a
`NOT NULL BIGINT`; `case_id` carries a `UNIQUE` constraint enforced by
`insertCodinCluc`. -/
structure ComplaintRow where
  rid : Nat
  case_id : String
  subject : String
  description : String
  category : Option String
  image_path : Option String
  mobile_no : Int
  location : Option String
  status : String
  deriving DecidableEq, Repr

/-- The `codinCluc` table: its rows in insertion order and the next value
of the `SERIAL` primary key. -/
structure CodinClucTable where
  rows : List ComplaintRow
  nextId : Nat
  deriving DecidableEq, Repr

/-- Value of a nonempty all-digit character sequence; `none` otherwise. -/
def digitsVal? : List Char → Option Nat
  | [] => none
  | l => l.foldl (fun acc c =>
      match acc with
      | none => none
      | some n => if c.isDigit then some (n * 10 + (c.toNat - 48)) else none)
      (some 0)

/-- PostgreSQL integer-literal syntax: an optional sign followed by
digits. -/
def parseBigint? (s : String) : Option Int :=
  match s.data with
  | '-' :: rest => (digitsVal? rest).map (fun n => -(n : Int))
  | '+' :: rest => (digitsVal? rest).map (fun n => (n : Int))
  | l => (digitsVal? l).map (fun n => (n : Int))

/-- PostgreSQL cast of a text request parameter into `BIGINT`: `none`
(JavaScript `undefined`, sent as SQL `NULL`) stays `NULL`; a string must
parse as an integer. -/
def castBigint : Option String → Except DbError (Option Int)
  | none => .ok none
  | some s =>
    match parseBigint? s with
    | some n => .ok (some n)
    | none => .error .typeError

/-- The `INSERT INTO codinCluc` statement of `POST /submitComplaint`
(server.js:328-332), with the schema's constraints: `NOT NULL` on
`subject`, `description`, `mobile_no`; `UNIQUE` on `case_id`; the
`status` column takes its default `'Submitted'`. -/
def insertCodinCluc (t : CodinClucTable) (case_id : String)
    (subject description category image_path location mobile : Option String) :
    Except DbError CodinClucTable := do
  let mobileVal ← castBigint mobile
  match subject, description, mobileVal with
  | some subj, some desc, some mob =>
    if t.rows.any (fun r => r.case_id == case_id) then
      .error .uniqueViolation
    else
      .ok { rows := t.rows ++ [{ rid := t.nextId, case_id := case_id,
                                 subject := subj, description := desc,
                                 category := category, image_path := image_path,
                                 mobile_no := mob, location := location,
                                 status := "Submitted" }],
            nextId := t.nextId + 1 }
  | _, _, _ => .error .notNullViolation

/-- Request body of `POST /submitComplaint`; absent fields are `none`. -/
structure SubmitComplaintReq where
  subject : Option String
  description : Option String
  location : Option String
  mobile : Option String
  category : Option String
  file : Option String
  deriving Repr

/-- Response of `POST /submitComplaint`: the 400 validation rejection, the
500 catch-all, or the success payload with the minted case id. -/
inductive SubmitResult
  | validationError
  | storeError
  | ok (caseId : String)
  deriving DecidableEq, Repr

/-- `POST /submitComplaint` (server.js:318-345).  `gen` supplies the
successive outputs of `generateCaseId`; the handler calls it exactly once
(`gen 0`), validates `subject`, `description`, `location`, `category`
(JavaScript truthiness), then attempts the single `INSERT`; any store
error is caught and mapped to the generic 500 response. -/
def submitComplaint (gen : Nat → String) (req : SubmitComplaintReq)
    (t : CodinClucTable) : SubmitResult × CodinClucTable :=
  let image_path := req.file.map (fun f => "/uploads/" ++ f)
  if !(truthy req.subject && truthy req.description &&
       truthy req.location && truthy req.category) then
    (.validationError, t)
  else
    let caseId := gen 0
    match insertCodinCluc t caseId req.subject req.description req.category
        image_path req.location req.mobile with
    | .ok t' => (.ok caseId, t')
    | .error _ => (.storeError, t)

/-- `POST /mark-resolved/:id` (server.js:250-259): a single
`UPDATE codinCluc SET status='Resolved' WHERE id=$1`; the handler answers
`{success: true}` unconditionally when the statement does not throw — it
never inspects the number of affected rows. -/
def markResolved (id : Nat) (t : CodinClucTable) : Bool × CodinClucTable :=
  (true,
   { t with rows := t.rows.map (fun r =>
       if r.rid = id then { r with status := "Resolved" } else r) })

/-- Response of `POST /trackStatus`. -/
inductive TrackResult
  | missingId
  | notFound
  | found (r : ComplaintRow)
  deriving DecidableEq, Repr

/-- SQL `UPPER`: uppercase every character. -/
def upper (s : String) : String := String.mk (s.data.map Char.toUpper)

/-- JavaScript `String.prototype.trim`: strip leading and trailing
whitespace. -/
def jsTrim (s : String) : String :=
  String.mk (((s.data.dropWhile Char.isWhitespace).reverse.dropWhile
    Char.isWhitespace).reverse)

/-- `POST /trackStatus` (server.js:363-397): rejects a falsy `caseId`,
otherwise `SELECT * FROM codinCluc WHERE UPPER(case_id) = UPPER($1)` with
the input trimmed, rendering the first returned row. -/
def trackStatus (caseId : Option String) (t : CodinClucTable) : TrackResult :=
  match caseId with
  | none => .missingId
  | some cid =>
    if cid = "" then .missingId
    else
      match t.rows.find? (fun r => upper r.case_id == upper (jsTrim cid)) with
      | some r => .found r
      | none => .notFound

/-- The aggregate statistics of `GET /` (server.js:152-170): `total` and
`resolved` come from one `COUNT` query; `pending` is computed in the
handler as `total - resolved`. -/
def aggregateCounts (t : CodinClucTable) : Nat × Nat × Nat :=
  let total := t.rows.length
  let resolved := (t.rows.filter (fun r => r.status == "Resolved")).length
  let pending := total - resolved
  (total, resolved, pending)

/-! ## The missing-person table (server.js:69-84) and its creation path -/

/-- A row of `missing_persons`: `case_id` is `UNIQUE NOT NULL`, `name` is
`NOT NULL`, every other column is nullable; `age` is `INT`,
`reporter_mobile` is `BIGINT`, `last_seen_date` is `DATE`; `status` takes
its default `'Active'`. -/
structure MissingPersonRow where
  rid : Nat
  case_id : String
  name : String
  age : Option Int
  gender : Option String
  last_seen_date : Option String
  last_seen_location : Option String
  description : Option String
  media_path : Option String
  reporter_mobile : Option Int
  status : String
  deriving DecidableEq, Repr

/-- The `missing_persons` table: rows in insertion order and the next
value of the `SERIAL` primary key. -/
structure MissingPersonsTable where
  rows : List MissingPersonRow
  nextId : Nat
  deriving DecidableEq, Repr

/-- PostgreSQL cast of a text parameter into `DATE`, restricted to the
ISO `YYYY-MM-DD` shape produced by the HTML date input; `none` stays
`NULL`, anything else is a cast failure. -/
def castDate : Option String → Except DbError (Option String)
  | none => .ok none
  | some s =>
    match s.data with
    | [y1, y2, y3, y4, '-', m1, m2, '-', d1, d2] =>
      if y1.isDigit && y2.isDigit && y3.isDigit && y4.isDigit &&
         m1.isDigit && m2.isDigit && d1.isDigit && d2.isDigit then
        .ok (some s)
      else .error .typeError
    | _ => .error .typeError

/-- The `INSERT INTO missing_persons` statement of
`POST /submit-missing-person` (server.js:501-505), with the schema's
constraints: casts on `age` (`INT`), `last_seen_date` (`DATE`) and
`reporter_mobile` (`BIGINT`); `NOT NULL` on `name`; `UNIQUE` on
`case_id`; `status` takes its default `'Active'`. -/
def insertMissingPersons (t : MissingPersonsTable) (case_id : String)
    (name age gender lastSeen location description media_path
      reporter_mobile : Option String) :
    Except DbError MissingPersonsTable := do
  let ageVal ← castBigint age
  let dateVal ← castDate lastSeen
  let mobileVal ← castBigint reporter_mobile
  match name with
  | some nm =>
    if t.rows.any (fun r => r.case_id == case_id) then
      .error .uniqueViolation
    else
      .ok { rows := t.rows ++ [{ rid := t.nextId, case_id := case_id,
                                 name := nm, age := ageVal, gender := gender,
                                 last_seen_date := dateVal,
                                 last_seen_location := location,
                                 description := description,
                                 media_path := media_path,
                                 reporter_mobile := mobileVal,
                                 status := "Active" }],
            nextId := t.nextId + 1 }
  | none => .error .notNullViolation

/-- Request body of `POST /submit-missing-person`; absent fields are
`none`. -/
structure SubmitMissingReq where
  name : Option String
  age : Option String
  gender : Option String
  lastSeen : Option String
  location : Option String
  description : Option String
  reporter_mobile : Option String
  file : Option String
  deriving Repr

/-- `POST /submit-missing-person` (server.js:490-516).  `gen` supplies
the successive outputs of `generateCaseId`; the handler calls it exactly
once (`gen 0`), validates `name`, `age`, `gender`, `lastSeen`,
`location`, `reporter_mobile` (JavaScript truthiness; `description` is
optional), then attempts the single `INSERT`; any store error is caught
and mapped to the generic 500 response. -/
def submitMissingPerson (gen : Nat → String) (req : SubmitMissingReq)
    (t : MissingPersonsTable) : SubmitResult × MissingPersonsTable :=
  let media_path := req.file.map (fun f => "/uploads/" ++ f)
  if !(truthy req.name && truthy req.age && truthy req.gender &&
       truthy req.lastSeen && truthy req.location &&
       truthy req.reporter_mobile) then
    (.validationError, t)
  else
    let caseId := gen 0
    match insertMissingPersons t caseId req.name req.age req.gender
        req.lastSeen req.location req.description media_path
        req.reporter_mobile with
    | .ok t' => (.ok caseId, t')
    | .error _ => (.storeError, t)

/-! ## The admin table and the OTP challenge (server.js:174-222) -/

/-- A row of `admins` (server.js:29-38): `otp` and `otp_expires` are
nullable; `otp_expires` is a timestamp in milliseconds. -/
structure AdminRow where
  name : String
  department_name : String
  department_id : String
  mobile_no : String
  otp : Option String
  otp_expires : Option Nat
  created_at : Nat
  deriving DecidableEq, Repr

/-- Request body of `POST /adminLogin`. -/
structure AdminLoginReq where
  name : Option String
  department_name : Option String
  department_id : Option String
  mobile_no : Option String
  deriving Repr

/-- Response of `POST /adminLogin`: the validation/server failure, or the
success payload echoing the issued OTP. -/
inductive AdminLoginResult
  | failure
  | issued (otp : String)
  deriving DecidableEq, Repr

/-- `POST /adminLogin` (server.js:174-207).  `otp` stands for the random
six-digit code of line 180, `now` for `Date.now()`; the expiry is
`now + 5*60*1000`.  If a row with the requested `department_id` exists,
its `otp`/`otp_expires` are overwritten (`UPDATE … WHERE department_id`),
otherwise a fresh row is inserted. -/
def adminLogin (req : AdminLoginReq) (otp : String) (now : Nat)
    (t : List AdminRow) : AdminLoginResult × List AdminRow :=
  if !(truthy req.name && truthy req.department_name &&
       truthy req.department_id && truthy req.mobile_no) then
    (.failure, t)
  else
    let dept := req.department_id.getD ""
    let expires := now + 5 * 60 * 1000
    if t.any (fun r => r.department_id == dept) then
      (.issued otp,
       t.map (fun r =>
         if r.department_id = dept then
           { r with otp := some otp, otp_expires := some expires }
         else r))
    else
      (.issued otp,
       t ++ [{ name := req.name.getD "", department_name := req.department_name.getD "",
               department_id := dept, mobile_no := req.mobile_no.getD "",
               otp := some otp, otp_expires := some expires, created_at := now }])

/-- The `WHERE otp=$1 AND otp_expires > NOW()` filter of
`POST /verify-admin-otp` on one row; a `NULL` `otp` or `otp_expires`
never matches. -/
def otpRowMatches (otpInput : String) (now : Nat) (r : AdminRow) : Bool :=
  r.otp == some otpInput &&
  match r.otp_expires with
  | some e => decide (now < e)
  | none => false

/-- `POST /verify-admin-otp` (server.js:209-222): succeeds (redirects to
the dashboard) exactly when
`SELECT * FROM admins WHERE otp=$1 AND otp_expires > NOW()` returns a row;
`now` is the SQL `NOW()` at verification time. -/
def verifyAdminOtp (otpInput : String) (now : Nat) (t : List AdminRow) : Bool :=
  t.any (otpRowMatches otpInput now)

/-! ## Concrete fixtures used to instantiate the theorems -/

/-- A stored complaint, as created by the submission scenario of the
spec. -/
def sampleRow : ComplaintRow :=
  { rid := 1, case_id := "CASE-ABC123", subject := "Pothole",
    description := "Large pothole", category := some "Roads",
    image_path := none, mobile_no := 9876543210,
    location := some "Main St", status := "Submitted" }

/-- `sampleRow` after resolution. -/
def resolvedRow : ComplaintRow :=
  { sampleRow with rid := 2, case_id := "CASE-DEF456", status := "Resolved" }

/-- A fully populated complaint-submission request. -/
def reqFull : SubmitComplaintReq :=
  { subject := some "Pothole", description := some "Large pothole",
    location := some "Main St", mobile := some "9876543210",
    category := some "Roads", file := none }

/-- `reqFull` with the contact (mobile) field absent. -/
def reqNoContact : SubmitComplaintReq :=
  { reqFull with mobile := none }

/-- `reqFull` with the category field absent. -/
def reqNoCategory : SubmitComplaintReq :=
  { reqFull with category := none }

/-- A stored missing-person report whose case id collides with
`sampleRow`'s generator output. -/
def missingRow : MissingPersonRow :=
  { rid := 1, case_id := "CASE-ABC123", name := "Ravi", age := some 30,
    gender := some "Male", last_seen_date := some "2024-01-15",
    last_seen_location := some "Main St",
    description := some "Last seen near the park", media_path := none,
    reporter_mobile := some 9876543210, status := "Active" }

/-- A fully populated missing-person submission request. -/
def reqMissingFull : SubmitMissingReq :=
  { name := some "Ravi", age := some "30", gender := some "Male",
    lastSeen := some "2024-01-15", location := some "Main St",
    description := some "Last seen near the park",
    reporter_mobile := some "9876543210", file := none }

/-- A valid admin-login request for department `D1`. -/
def adminReq1 : AdminLoginReq :=
  { name := some "Asha", department_name := some "Roads",
    department_id := some "D1", mobile_no := some "9876543210" }

/-! ## Helper lemmas -/

theorem truthy_eq_true_iff (o : Option String) :
    truthy o = true ↔ ∃ s, o = some s ∧ s ≠ "" := by
  cases o <;> simp [truthy]

theorem adminLogin_failure_of_invalid (req : AdminLoginReq) (otp : String)
    (now : Nat) (t : List AdminRow)
    (h : (truthy req.name && truthy req.department_name &&
          truthy req.department_id && truthy req.mobile_no) = false) :
    adminLogin req otp now t = (.failure, t) := by
  simp [adminLogin, h]

theorem adminLogin_issued_dept (req : AdminLoginReq) (code : String) (T : Nat)
    (t : List AdminRow)
    (hissued : (adminLogin req code T t).1 = .issued code) :
    ∃ d, req.department_id = some d ∧ d ≠ "" := by
  rw [← truthy_eq_true_iff]
  rcases hb : (truthy req.name && truthy req.department_name &&
      truthy req.department_id && truthy req.mobile_no) with _ | _
  · rw [adminLogin_failure_of_invalid req code T t hb] at hissued
    simp at hissued
  · simp only [Bool.and_eq_true] at hb
    exact hb.1.2

/-- Characterization of a successful `POST /adminLogin`: the issued code
is echoed, and the `admins` table is either updated in place (department
already present) or extended with a fresh row. -/
theorem adminLogin_valid_eq (req : AdminLoginReq) (code : String) (T : Nat)
    (t : List AdminRow) (d : String)
    (hd : req.department_id = some d)
    (hb : (truthy req.name && truthy req.department_name &&
           truthy req.department_id && truthy req.mobile_no) = true) :
    adminLogin req code T t =
      (.issued code,
       if (t.any fun r => r.department_id == d) = true then
         t.map (fun r =>
           if r.department_id = d then
             { r with otp := some code,
                      otp_expires := some (T + 5 * 60 * 1000) }
           else r)
       else
         t ++ [{ name := req.name.getD "",
                 department_name := req.department_name.getD "",
                 department_id := d, mobile_no := req.mobile_no.getD "",
                 otp := some code,
                 otp_expires := some (T + 5 * 60 * 1000), created_at := T }]) := by
  rw [hd] at hb
  simp only [adminLogin, hd, Option.getD_some, hb, Bool.not_true,
    Bool.false_eq_true, if_false]
  split <;> rfl

theorem adminLogin_issued_valid (req : AdminLoginReq) (code : String) (T : Nat)
    (t : List AdminRow)
    (hissued : (adminLogin req code T t).1 = .issued code) :
    (truthy req.name && truthy req.department_name &&
     truthy req.department_id && truthy req.mobile_no) = true := by
  rcases hb : (truthy req.name && truthy req.department_name &&
      truthy req.department_id && truthy req.mobile_no) with _ | _
  · rw [adminLogin_failure_of_invalid req code T t hb] at hissued
    simp at hissued
  · rfl

theorem adminLogin_issued_state (req : AdminLoginReq) (code : String) (T : Nat)
    (t : List AdminRow) (d : String)
    (hd : req.department_id = some d)
    (hissued : (adminLogin req code T t).1 = .issued code) :
    ∀ r ∈ (adminLogin req code T t).2,
      (r.department_id = d →
        r.otp = some code ∧ r.otp_expires = some (T + 5 * 60 * 1000)) ∧
      (r.department_id ≠ d → r ∈ t) := by
  have hb := adminLogin_issued_valid req code T t hissued
  rw [adminLogin_valid_eq req code T t d hd hb]
  intro r hr
  by_cases hex : (t.any fun r => r.department_id == d) = true
  · rw [if_pos hex] at hr
    obtain ⟨r₀, hr₀, hfr⟩ := List.mem_map.mp hr
    by_cases hdep : r₀.department_id = d
    · rw [if_pos hdep] at hfr
      subst hfr
      exact ⟨fun _ => ⟨rfl, rfl⟩, fun hne => absurd hdep hne⟩
    · rw [if_neg hdep] at hfr
      subst hfr
      exact ⟨fun hc => absurd hc hdep, fun _ => hr₀⟩
  · rw [if_neg hex] at hr
    rcases List.mem_append.mp hr with hin | hnew
    · refine ⟨fun hdep => ?_, fun _ => hin⟩
      exact absurd (List.any_eq_true.mpr ⟨r, hin, by simp [hdep]⟩) hex
    · simp only [List.mem_singleton] at hnew
      subst hnew
      exact ⟨fun _ => ⟨rfl, rfl⟩, fun hne => absurd rfl hne⟩

theorem adminLogin_issued_exists (req : AdminLoginReq) (code : String) (T : Nat)
    (t : List AdminRow) (d : String)
    (hd : req.department_id = some d)
    (hissued : (adminLogin req code T t).1 = .issued code) :
    ∃ r ∈ (adminLogin req code T t).2, r.department_id = d ∧
      r.otp = some code ∧ r.otp_expires = some (T + 5 * 60 * 1000) := by
  have hb := adminLogin_issued_valid req code T t hissued
  rw [adminLogin_valid_eq req code T t d hd hb]
  by_cases hex : (t.any fun r => r.department_id == d) = true
  · rw [if_pos hex]
    obtain ⟨r₀, hr₀, hdep⟩ := List.any_eq_true.mp hex
    have hdep' : r₀.department_id = d := by simpa using hdep
    refine ⟨{ r₀ with otp := some code, otp_expires := some (T + 5 * 60 * 1000) }, ?_, hdep', rfl, rfl⟩
    exact List.mem_map.mpr ⟨r₀, hr₀, by rw [if_pos hdep']⟩
  · rw [if_neg hex]
    exact ⟨_, List.mem_append.mpr (Or.inr (List.mem_singleton.mpr rfl)),
      rfl, rfl, rfl⟩

theorem otpRowMatches_eq_false_of_ne (otpInput : String) (now : Nat)
    (r : AdminRow) (h : r.otp ≠ some otpInput) :
    otpRowMatches otpInput now r = false := by
  simp [otpRowMatches, h]

theorem map_self_of_fixed {α : Type} (l : List α) (f : α → α)
    (h : ∀ a ∈ l, f a = a) : l.map f = l :=
  (List.map_congr_left h).trans (List.map_id l)

theorem charAt_of_lt {i : Nat} (h : i < 36) :
    ∃ c, charAt caseIdChars i = String.mk [c] ∧ c ∈ caseIdChars.data := by
  have hlen : i < caseIdChars.data.length := by
    have h36 : caseIdChars.data.length = 36 := by decide
    omega
  refine ⟨caseIdChars.data[i], ?_, List.getElem_mem hlen⟩
  simp [charAt, List.getElem?_eq_getElem hlen]

theorem generateCaseId_eq (r : Nat → Nat) :
    generateCaseId r = "CASE-" ++ charAt caseIdChars (r 0) ++
      charAt caseIdChars (r 1) ++ charAt caseIdChars (r 2) ++
      charAt caseIdChars (r 3) ++ charAt caseIdChars (r 4) ++
      charAt caseIdChars (r 5) := rfl

/-! ## The claims -/

/-- C6: every identifier returned by `generateCaseId` is the constant
prefix `"CASE-"` followed by a suffix of exactly 6 characters, each drawn
from the 36-symbol uppercase-alphanumeric alphabet. -/
theorem generateCaseId_shape (r : Nat → Nat) (h : ∀ i, i < 6 → r i < 36) :
    ∃ suffix : String, generateCaseId r = "CASE-" ++ suffix ∧
      suffix.length = 6 ∧ ∀ c ∈ suffix.data, c ∈ caseIdChars.data := by
  obtain ⟨c0, e0, m0⟩ := charAt_of_lt (h 0 (by omega))
  obtain ⟨c1, e1, m1⟩ := charAt_of_lt (h 1 (by omega))
  obtain ⟨c2, e2, m2⟩ := charAt_of_lt (h 2 (by omega))
  obtain ⟨c3, e3, m3⟩ := charAt_of_lt (h 3 (by omega))
  obtain ⟨c4, e4, m4⟩ := charAt_of_lt (h 4 (by omega))
  obtain ⟨c5, e5, m5⟩ := charAt_of_lt (h 5 (by omega))
  refine ⟨String.mk [c0, c1, c2, c3, c4, c5], ?_, rfl, ?_⟩
  · rw [generateCaseId_eq, e0, e1, e2, e3, e4, e5]
    rfl
  · intro c hc
    simp only [List.mem_cons, List.not_mem_nil, or_false] at hc
    rcases hc with rfl | rfl | rfl | rfl | rfl | rfl
    · exact m0
    · exact m1
    · exact m2
    · exact m3
    · exact m4
    · exact m5

/-- Witness for C6 at a concrete sequence of random draws. -/
theorem generateCaseId_shape_witness :
    ∃ suffix : String, generateCaseId (fun i => 5 * i + 3) = "CASE-" ++ suffix ∧
      suffix.length = 6 ∧ ∀ c ∈ suffix.data, c ∈ caseIdChars.data :=
  generateCaseId_shape (fun i => 5 * i + 3)
    (fun i hi => by show 5 * i + 3 < 36; omega)

/-- C8: the aggregate counts of the homepage satisfy
`pending = total - resolved` (pending is recomputed, never stored), and
consistently `resolved + pending = total` with `resolved ≤ total`. -/
theorem aggregateCounts_pending_derived (t : CodinClucTable) :
    (aggregateCounts t).2.2 = (aggregateCounts t).1 - (aggregateCounts t).2.1 ∧
    (aggregateCounts t).2.1 + (aggregateCounts t).2.2 = (aggregateCounts t).1 ∧
    (aggregateCounts t).2.1 ≤ (aggregateCounts t).1 := by
  have hle : (t.rows.filter (fun r => r.status == "Resolved")).length ≤
      t.rows.length := List.length_filter_le _ _
  refine ⟨rfl, ?_, hle⟩
  simp only [aggregateCounts]
  omega

/-- C5: marking a complaint resolved always reports success, leaves every
row with the targeted id in status `"Resolved"`, and is idempotent: when
every targeted row is already `"Resolved"`, the store is unchanged. -/
theorem markResolved_idempotent_resolved (t : CodinClucTable) (cid : Nat) :
    (markResolved cid t).1 = true ∧
    (∀ r ∈ (markResolved cid t).2.rows, r.rid = cid → r.status = "Resolved") ∧
    ((∀ r ∈ t.rows, r.rid = cid → r.status = "Resolved") →
      markResolved cid t = (true, t)) := by
  refine ⟨rfl, ?_, ?_⟩
  · intro r hr hrid
    simp only [markResolved, List.mem_map] at hr
    obtain ⟨r₀, hr₀, hfr⟩ := hr
    by_cases hdep : r₀.rid = cid
    · rw [if_pos hdep] at hfr
      subst hfr
      rfl
    · rw [if_neg hdep] at hfr
      subst hfr
      exact absurd hrid hdep
  · intro hall
    have hmap : t.rows.map (fun r =>
        if r.rid = cid then { r with status := "Resolved" } else r) = t.rows := by
      apply map_self_of_fixed
      intro r hr
      by_cases hdep : r.rid = cid
      · rw [if_pos hdep]
        have := hall r hr hdep
        cases r
        simp_all
      · exact if_neg hdep
    simp only [markResolved, hmap]

/-- Witness for C5: re-resolving an already-resolved complaint reports
success and leaves the store unchanged. -/
theorem markResolved_idempotent_resolved_witness :
    (markResolved 2 ⟨[resolvedRow], 3⟩).1 = true ∧
    (∀ r ∈ (markResolved 2 (⟨[resolvedRow], 3⟩ : CodinClucTable)).2.rows,
      r.rid = 2 → r.status = "Resolved") ∧
    markResolved 2 ⟨[resolvedRow], 3⟩ = (true, ⟨[resolvedRow], 3⟩) := by
  have h := markResolved_idempotent_resolved ⟨[resolvedRow], 3⟩ 2
  exact ⟨h.1, h.2.1, h.2.2 (by decide)⟩

/-- C4 counterexample: a mark-resolved request for id 5 against a store
with no rows reports `success: true`, not the not-found failure the claim
requires (state is indeed unchanged). -/
theorem markResolved_unknown_id_reports_success :
    markResolved 5 ⟨[], 1⟩ = (true, ⟨[], 1⟩) ∧
    (markResolved 5 (⟨[], 1⟩ : CodinClucTable)).1 ≠ false := by
  decide

/-- C4 amended: a mark-resolved request whose id matches no stored
complaint leaves every record unchanged, but the handler reports
`success: true` — it never reports a not-found failure. -/
theorem markResolved_unknown_id_no_change (t : CodinClucTable) (cid : Nat)
    (h : ∀ r ∈ t.rows, r.rid ≠ cid) :
    markResolved cid t = (true, t) := by
  have hmap : t.rows.map (fun r =>
      if r.rid = cid then { r with status := "Resolved" } else r) = t.rows := by
    apply map_self_of_fixed
    intro r hr
    exact if_neg (h r hr)
  simp only [markResolved, hmap]

/-- Witness for the amended C4 at a concrete store and id. -/
theorem markResolved_unknown_id_no_change_witness :
    markResolved 5 ⟨[sampleRow], 2⟩ = (true, ⟨[sampleRow], 2⟩) :=
  markResolved_unknown_id_no_change ⟨[sampleRow], 2⟩ 5 (by decide)

/-- C1 counterexample: a submission missing only the contact (mobile)
field is not rejected by validation — it reaches the store and yields the
generic store error (no row is created, but the failure is not a
validation error). -/
theorem submitComplaint_missing_contact_not_validation :
    submitComplaint (fun _ => "CASE-AAAAAA") reqNoContact ⟨[], 1⟩ =
      (.storeError, ⟨[], 1⟩) ∧
    (submitComplaint (fun _ => "CASE-AAAAAA") reqNoContact
      (⟨[], 1⟩ : CodinClucTable)).1 ≠ .validationError := by
  decide

/-- C1 amended: a submission missing any of subject, description,
location, category fails with a validation error and the store is
untouched (no row created); the contact field is not among the validated
fields. -/
theorem submitComplaint_missing_required_field_validation (gen : Nat → String)
    (req : SubmitComplaintReq) (t : CodinClucTable)
    (h : ¬(truthy req.subject = true ∧ truthy req.description = true ∧
           truthy req.location = true ∧ truthy req.category = true)) :
    submitComplaint gen req t = (.validationError, t) := by
  rcases hb : (truthy req.subject && truthy req.description &&
      truthy req.location && truthy req.category) with _ | _
  · simp [submitComplaint, hb]
  · exact absurd (by simpa [Bool.and_eq_true, and_assoc] using hb) h

/-- Witness for the amended C1: a submission missing `category` is
rejected by validation with the store unchanged. -/
theorem submitComplaint_missing_required_field_validation_witness :
    submitComplaint (fun _ => "CASE-AAAAAA") reqNoCategory ⟨[], 1⟩ =
      (.validationError, ⟨[], 1⟩) :=
  submitComplaint_missing_required_field_validation (fun _ => "CASE-AAAAAA")
    reqNoCategory ⟨[], 1⟩ (by decide)

/-- C10: a submission that supplies subject, description, category and
location but omits the contact passes validation and reaches the store,
where the `NOT NULL` constraint on `mobile_no` rejects the insert; the
caller receives the generic store error, and no row is created. -/
theorem submitComplaint_missing_contact_store_error (gen : Nat → String)
    (req : SubmitComplaintReq) (t : CodinClucTable)
    (hs : truthy req.subject = true) (hd : truthy req.description = true)
    (hl : truthy req.location = true) (hc : truthy req.category = true)
    (hm : req.mobile = none) :
    insertCodinCluc t (gen 0) req.subject req.description req.category
        (req.file.map (fun f => "/uploads/" ++ f)) req.location req.mobile
      = .error .notNullViolation ∧
    submitComplaint gen req t = (.storeError, t) := by
  obtain ⟨s, hseq, -⟩ := (truthy_eq_true_iff _).mp hs
  obtain ⟨ds, hdeq, -⟩ := (truthy_eq_true_iff _).mp hd
  have hins : insertCodinCluc t (gen 0) req.subject req.description req.category
      (req.file.map (fun f => "/uploads/" ++ f)) req.location req.mobile
      = .error .notNullViolation := by
    rw [hm, hseq, hdeq]
    rfl
  refine ⟨hins, ?_⟩
  simp only [submitComplaint, hs, hd, hl, hc, Bool.and_self, Bool.not_true,
    Bool.false_eq_true, if_false, hins]

/-- Witness for C10 at a concrete request and empty store. -/
theorem submitComplaint_missing_contact_store_error_witness :
    insertCodinCluc ⟨[], 1⟩ "CASE-AAAAAA" reqNoContact.subject
        reqNoContact.description reqNoContact.category
        (reqNoContact.file.map (fun f => "/uploads/" ++ f))
        reqNoContact.location reqNoContact.mobile
      = .error .notNullViolation ∧
    submitComplaint (fun _ => "CASE-AAAAAA") reqNoContact ⟨[], 1⟩ =
      (.storeError, ⟨[], 1⟩) :=
  submitComplaint_missing_contact_store_error (fun _ => "CASE-AAAAAA")
    reqNoContact ⟨[], 1⟩ (by decide) (by decide) (by decide) (by decide) rfl

/-- C9 counterexample: with the freshly generated id colliding with the
stored one and a distinct id available as the next generator output, the
handler surfaces the generic store error immediately; a single
regeneration (as the claim demands) would have succeeded. -/
theorem submitComplaint_collision_immediate_error :
    submitComplaint (fun i => if i = 0 then "CASE-ABC123" else "CASE-ZZZZZZ")
        reqFull ⟨[sampleRow], 2⟩ = (.storeError, ⟨[sampleRow], 2⟩) ∧
    (submitComplaint (fun _ => "CASE-ZZZZZZ") reqFull
        (⟨[sampleRow], 2⟩ : CodinClucTable)).1 = .ok "CASE-ZZZZZZ" := by
  decide

/-- Collision behaviour of the complaint creation path: no regeneration,
no retry, immediate generic store error. -/
theorem submitComplaint_collision_aux (gen : Nat → String)
    (req : SubmitComplaintReq) (t : CodinClucTable)
    (hs : truthy req.subject = true) (hd : truthy req.description = true)
    (hl : truthy req.location = true) (hc : truthy req.category = true)
    (hm : ∃ n : Int, castBigint req.mobile = .ok (some n))
    (hcoll : t.rows.any (fun r => r.case_id == gen 0) = true) :
    insertCodinCluc t (gen 0) req.subject req.description req.category
        (req.file.map (fun f => "/uploads/" ++ f)) req.location req.mobile
      = .error .uniqueViolation ∧
    submitComplaint gen req t = (.storeError, t) ∧
    ∀ gen' : Nat → String, gen' 0 = gen 0 →
      submitComplaint gen' req t = submitComplaint gen req t := by
  obtain ⟨s, hseq, -⟩ := (truthy_eq_true_iff _).mp hs
  obtain ⟨ds, hdeq, -⟩ := (truthy_eq_true_iff _).mp hd
  obtain ⟨n, hn⟩ := hm
  have hins : insertCodinCluc t (gen 0) req.subject req.description req.category
      (req.file.map (fun f => "/uploads/" ++ f)) req.location req.mobile
      = .error .uniqueViolation := by
    rw [hseq, hdeq]
    simp [insertCodinCluc, hn, hcoll]
    rfl
  refine ⟨hins, ?_, ?_⟩
  · simp only [submitComplaint, hs, hd, hl, hc, Bool.and_self, Bool.not_true,
      Bool.false_eq_true, if_false, hins]
  · intro gen' hg
    simp only [submitComplaint, hg]

/-- Collision behaviour of the missing-person creation path: no
regeneration, no retry, immediate generic store error. -/
theorem submitMissingPerson_collision_aux (gen : Nat → String)
    (req : SubmitMissingReq) (t : MissingPersonsTable)
    (hn : truthy req.name = true) (ha : truthy req.age = true)
    (hg : truthy req.gender = true) (hls : truthy req.lastSeen = true)
    (hlo : truthy req.location = true)
    (hrm : truthy req.reporter_mobile = true)
    (hac : ∃ n : Int, castBigint req.age = .ok (some n))
    (hdc : ∃ dv, castDate req.lastSeen = .ok (some dv))
    (hmc : ∃ n : Int, castBigint req.reporter_mobile = .ok (some n))
    (hcoll : t.rows.any (fun r => r.case_id == gen 0) = true) :
    insertMissingPersons t (gen 0) req.name req.age req.gender req.lastSeen
        req.location req.description (req.file.map (fun f => "/uploads/" ++ f))
        req.reporter_mobile = .error .uniqueViolation ∧
    submitMissingPerson gen req t = (.storeError, t) ∧
    ∀ gen' : Nat → String, gen' 0 = gen 0 →
      submitMissingPerson gen' req t = submitMissingPerson gen req t := by
  obtain ⟨nm, hnm, -⟩ := (truthy_eq_true_iff _).mp hn
  obtain ⟨an, han⟩ := hac
  obtain ⟨dv, hdv⟩ := hdc
  obtain ⟨mn, hmn⟩ := hmc
  have hins : insertMissingPersons t (gen 0) req.name req.age req.gender
      req.lastSeen req.location req.description
      (req.file.map (fun f => "/uploads/" ++ f)) req.reporter_mobile
      = .error .uniqueViolation := by
    rw [hnm]
    simp [insertMissingPersons, han, hdv, hmn, hcoll]
    rfl
  refine ⟨hins, ?_, ?_⟩
  · simp only [submitMissingPerson, hn, ha, hg, hls, hlo, hrm, Bool.and_self,
      Bool.not_true, Bool.false_eq_true, if_false, hins]
  · intro gen' hgeq
    simp only [submitMissingPerson, hgeq]

/-- C9 amended: on an identifier collision, neither creation path — the
complaint submission nor the missing-person submission — regenerates or
retries: the single `INSERT` fails with the unique violation, the handler
immediately answers the generic store error with the store unchanged, and
the response depends only on the first generator output. -/
theorem creation_collision_no_retry (gen : Nat → String)
    (req : SubmitComplaintReq) (reqM : SubmitMissingReq)
    (t : CodinClucTable) (tm : MissingPersonsTable)
    (hs : truthy req.subject = true) (hd : truthy req.description = true)
    (hl : truthy req.location = true) (hc : truthy req.category = true)
    (hm : ∃ n : Int, castBigint req.mobile = .ok (some n))
    (hcoll : t.rows.any (fun r => r.case_id == gen 0) = true)
    (hn : truthy reqM.name = true) (ha : truthy reqM.age = true)
    (hg : truthy reqM.gender = true) (hls : truthy reqM.lastSeen = true)
    (hlo : truthy reqM.location = true)
    (hrm : truthy reqM.reporter_mobile = true)
    (hac : ∃ n : Int, castBigint reqM.age = .ok (some n))
    (hdc : ∃ dv, castDate reqM.lastSeen = .ok (some dv))
    (hmc : ∃ n : Int, castBigint reqM.reporter_mobile = .ok (some n))
    (hcollM : tm.rows.any (fun r => r.case_id == gen 0) = true) :
    (insertCodinCluc t (gen 0) req.subject req.description req.category
        (req.file.map (fun f => "/uploads/" ++ f)) req.location req.mobile
      = .error .uniqueViolation ∧
     submitComplaint gen req t = (.storeError, t) ∧
     ∀ gen' : Nat → String, gen' 0 = gen 0 →
       submitComplaint gen' req t = submitComplaint gen req t) ∧
    (insertMissingPersons tm (gen 0) reqM.name reqM.age reqM.gender
        reqM.lastSeen reqM.location reqM.description
        (reqM.file.map (fun f => "/uploads/" ++ f)) reqM.reporter_mobile
      = .error .uniqueViolation ∧
     submitMissingPerson gen reqM tm = (.storeError, tm) ∧
     ∀ gen' : Nat → String, gen' 0 = gen 0 →
       submitMissingPerson gen' reqM tm = submitMissingPerson gen reqM tm) :=
  ⟨submitComplaint_collision_aux gen req t hs hd hl hc hm hcoll,
   submitMissingPerson_collision_aux gen reqM tm hn ha hg hls hlo hrm
     hac hdc hmc hcollM⟩

/-- Witness for the amended C9: a colliding generator output makes both
creation paths answer the generic store error with their stores
unchanged. -/
theorem creation_collision_no_retry_witness :
    submitComplaint (fun _ => "CASE-ABC123") reqFull ⟨[sampleRow], 2⟩ =
      (.storeError, ⟨[sampleRow], 2⟩) ∧
    submitMissingPerson (fun _ => "CASE-ABC123") reqMissingFull
      ⟨[missingRow], 2⟩ = (.storeError, ⟨[missingRow], 2⟩) := by
  have h := creation_collision_no_retry (fun _ => "CASE-ABC123") reqFull
    reqMissingFull ⟨[sampleRow], 2⟩ ⟨[missingRow], 2⟩
    (by decide) (by decide) (by decide) (by decide) ⟨9876543210, rfl⟩
    (by decide) (by decide) (by decide) (by decide) (by decide) (by decide)
    (by decide) ⟨30, rfl⟩ ⟨"2024-01-15", rfl⟩ ⟨9876543210, rfl⟩ (by decide)
  exact ⟨h.1.2.1, h.2.2.1⟩

/-- C2: an OTP issued at time `T` (milliseconds) for a previously unused
code is accepted by the verifier at exactly the check times strictly
before `T` plus 5 minutes, the stored expiry being compared against the
clock at verification time. -/
theorem otp_five_minute_window (req : AdminLoginReq) (code : String)
    (T now : Nat) (t : List AdminRow)
    (hfresh : ∀ r ∈ t, r.otp ≠ some code)
    (hissued : (adminLogin req code T t).1 = .issued code) :
    verifyAdminOtp code now (adminLogin req code T t).2 =
      decide (now < T + 5 * 60 * 1000) := by
  obtain ⟨d, hd, -⟩ := adminLogin_issued_dept req code T t hissued
  rcases Nat.lt_or_ge now (T + 5 * 60 * 1000) with hlt | hge
  · rw [decide_eq_true hlt]
    obtain ⟨r, hr, hrd, hro, hre⟩ :=
      adminLogin_issued_exists req code T t d hd hissued
    exact List.any_eq_true.mpr ⟨r, hr, by simp [otpRowMatches, hro, hre, hlt]⟩
  · have hnlt : ¬ (now < T + 5 * 60 * 1000) := Nat.not_lt.mpr hge
    rw [decide_eq_false hnlt]
    rw [verifyAdminOtp, List.any_eq_false]
    intro r hr
    have hstate := adminLogin_issued_state req code T t d hd hissued r hr
    by_cases hdep : r.department_id = d
    · obtain ⟨hro, hre⟩ := hstate.1 hdep
      simp [otpRowMatches, hro, hre, hnlt]
    · have hrt := hstate.2 hdep
      have hro := hfresh r hrt
      simp [otpRowMatches, hro]

/-- Witness for C2: the OTP issued at `T = 0` is accepted at `T + 4` min
and rejected at `T + 6` min. -/
theorem otp_five_minute_window_witness :
    verifyAdminOtp "123456" 240000 (adminLogin adminReq1 "123456" 0 []).2 =
      true ∧
    verifyAdminOtp "123456" 360000 (adminLogin adminReq1 "123456" 0 []).2 =
      false := by
  have h4 := otp_five_minute_window adminReq1 "123456" 0 240000 []
    (by simp) (by decide)
  have h6 := otp_five_minute_window adminReq1 "123456" 0 360000 []
    (by simp) (by decide)
  rw [h4, h6]
  exact ⟨by decide, by decide⟩

/-- C3: issuing a second OTP for the same department overwrites the
first: after the second issuance every stored row of that department
holds the new code (at most one active code per subject), and verifying
the first code fails at every check time. -/
theorem otp_reissue_supersedes (req1 req2 : AdminLoginReq) (c1 c2 d : String)
    (T1 T2 now : Nat) (t : List AdminRow)
    (hne : c1 ≠ c2)
    (hfresh : ∀ r ∈ t, r.otp ≠ some c1)
    (hd1 : req1.department_id = some d) (hd2 : req2.department_id = some d)
    (h1 : (adminLogin req1 c1 T1 t).1 = .issued c1)
    (h2 : (adminLogin req2 c2 T2 (adminLogin req1 c1 T1 t).2).1 = .issued c2) :
    (∀ r ∈ (adminLogin req2 c2 T2 (adminLogin req1 c1 T1 t).2).2,
        r.department_id = d → r.otp = some c2) ∧
    verifyAdminOtp c1 now (adminLogin req2 c2 T2 (adminLogin req1 c1 T1 t).2).2
      = false := by
  have hstate1 := adminLogin_issued_state req1 c1 T1 t d hd1 h1
  have hstate2 := adminLogin_issued_state req2 c2 T2 _ d hd2 h2
  have hkey : ∀ r ∈ (adminLogin req2 c2 T2 (adminLogin req1 c1 T1 t).2).2,
      (r.department_id = d → r.otp = some c2) ∧ r.otp ≠ some c1 := by
    intro r hr
    by_cases hdep : r.department_id = d
    · obtain ⟨hro, -⟩ := (hstate2 r hr).1 hdep
      refine ⟨fun _ => hro, ?_⟩
      rw [hro]
      intro hcc
      exact hne ((Option.some.inj hcc).symm)
    · have hr1 := (hstate2 r hr).2 hdep
      have hrt := (hstate1 r hr1).2 hdep
      exact ⟨fun hc => absurd hc hdep, hfresh r hrt⟩
  refine ⟨fun r hr hdep => (hkey r hr).1 hdep, ?_⟩
  rw [verifyAdminOtp, List.any_eq_false]
  intro r hr
  have hro := (hkey r hr).2
  simp [otpRowMatches, hro]

/-- Witness for C3: after reissuing for department `D1`, the first code
no longer verifies. -/
theorem otp_reissue_supersedes_witness :
    verifyAdminOtp "111111" 240000
      (adminLogin adminReq1 "222222" 60000
        (adminLogin adminReq1 "111111" 0 []).2).2 = false :=
  (otp_reissue_supersedes adminReq1 adminReq1 "111111" "222222" "D1"
    0 60000 240000 [] (by decide) (by simp) rfl rfl
    (by decide) (by decide)).2

/-- C7: case-id lookup is case-insensitive — for a stored complaint whose
identifier is unique in the store up to case, querying with any
case-variant of the identifier (same uppercasing after trimming) returns
that same record. -/
theorem trackStatus_case_insensitive (t : CodinClucTable) (r : ComplaintRow)
    (q : String)
    (hm : r ∈ t.rows)
    (huniq : ∀ r' ∈ t.rows, upper r'.case_id = upper r.case_id → r' = r)
    (hq : upper (jsTrim q) = upper r.case_id)
    (hne : q ≠ "") :
    trackStatus (some q) t = .found r := by
  simp only [trackStatus]
  rw [if_neg hne]
  rcases hfind : t.rows.find? (fun r' => upper r'.case_id == upper (jsTrim q))
    with _ | r'
  · exfalso
    rw [List.find?_eq_none] at hfind
    exact hfind r hm (by rw [beq_iff_eq, hq])
  · have hp := List.find?_some hfind
    have hmem := List.mem_of_find?_eq_some hfind
    rw [beq_iff_eq, hq] at hp
    rw [hfind, huniq r' hmem hp]

/-- Witness for C7: the stored id `CASE-ABC123` is found by its
lowercased form. -/
theorem trackStatus_case_insensitive_witness :
    trackStatus (some "case-abc123") ⟨[sampleRow], 2⟩ = .found sampleRow :=
  trackStatus_case_insensitive ⟨[sampleRow], 2⟩ sampleRow "case-abc123"
    (by decide) (by decide) (by decide) (by decide)

end Jansarthi
